import Mathlib

/-!
Verification of the KawaiiStudio media session core: a shallow embedding of
the `useMediaAccess` hook (gender-filter variant) and the `useGenderFilter`
hook, with proofs about stream composition, track lifetime, gain staging,
audio mixing and the recorder chunk buffer.

Streams are lists of tracks; a track carries an identifier and a kind.
Track liveness is modelled by a store of stopped track identifiers carried
in the session state (`MediaSt.stoppedIds`): `track.stop()` adds the
track's identifier to the store.  Browser-supplied values (acquired
streams, audio-graph destination streams, recorder identifiers, codec
support) are passed as explicit parameters.  UI-only fields of the React
state (audio meter animation, device enumeration, filter mode label) that
no modelled operation reads are omitted.  Gain values are rationals.
-/

namespace Kawaii

inductive TrackKind where
  | video
  | audio
deriving DecidableEq, Repr

structure Track where
  tid : Nat
  kind : TrackKind
deriving DecidableEq, Repr

structure Stream where
  tracks : List Track
deriving DecidableEq, Repr

def Stream.getVideoTracks (s : Stream) : List Track :=
  s.tracks.filter fun t => t.kind = TrackKind.video

def Stream.getAudioTracks (s : Stream) : List Track :=
  s.tracks.filter fun t => t.kind = TrackKind.audio

/-- An encoder session handle: `MediaRecorder(combinedStream, {mimeType})`.
`inactive` mirrors `recorder.state === 'inactive'`. -/
structure Recorder where
  rid : Nat
  stream : Stream
  mimeType : String
  inactive : Bool
deriving DecidableEq, Repr

/-- One `ondataavailable` payload (`event.data`); only its byte size and an
identity tag are relevant. -/
structure Chunk where
  size : Nat
  payload : Nat
deriving DecidableEq, Repr

/-- The artifact assembled by the `onstop` handler
(`new Blob(recordedChunksRef.current, {type: mimeType})`). -/
structure RecordingBlob where
  parts : List Chunk
  mime : String
deriving DecidableEq, Repr

/-- The media session state: the `MediaState` React state of
`useMediaAccess` together with the persistent refs
(`originalMicStreamRef`, `recordingMicStreamRef`, `mediaRecorderRef`,
`recordedChunksRef`, the gain-node refs) and the track-liveness store. -/
structure MediaSt where
  isScreenSharing : Bool
  isCameraOn : Bool
  isMicOn : Bool
  isRecording : Bool
  screenStream : Option Stream
  cameraStream : Option Stream
  microphoneStream : Option Stream
  transformedCameraStream : Option Stream
  audioLevel : ℚ
  microphoneVolume : ℚ
  screenAudioVolume : ℚ
  selectedMicrophone : String
  originalMicStream : Option Stream
  microphoneDevice : String
  recordingMicStream : Option Stream
  recorder : Option Recorder
  recordedChunks : List Chunk
  micGainNode : Option ℚ
  recordingMicGainNode : Option ℚ
  screenGainNode : Option ℚ
  stoppedIds : List Nat
deriving DecidableEq, Repr

/-- `stream.getTracks().forEach(track => track.stop())`. -/
def stopStreamIds (st : List Nat) (s : Stream) : List Nat :=
  st ++ s.tracks.map Track.tid

/-- The recording-path gain: `Math.max(2.0, (volume / 100) * 5)`
(`createRecordingMicrophoneStream` line 145 and `setMicrophoneVolume`
line 420 of the source). -/
def recGain (volume : ℚ) : ℚ :=
  max 2 (volume / 100 * 5)

/-- `createRecordingMicrophoneStream(originalStream, volume)`: builds a
dedicated audio graph whose destination stream (`dest`, supplied by the
environment) becomes the recording microphone stream, behind a gain node
set to `recGain volume`. -/
def createRecordingMicrophoneStream (s : MediaSt) (dest : Stream) (volume : ℚ) : MediaSt :=
  { s with recordingMicStream := some dest,
           recordingMicGainNode := some (recGain volume) }

/-- `startScreenCapture()`: acquires `acquired` from `getDisplayMedia`; when
the acquired stream has system audio, the first audio track is removed and
replaced by the gain-graph destination track `destAudio`, and the screen
gain node is set to `(screenAudioVolume / 100) * 2`.  The previous screen
stream (if any) is merely overwritten — no track of it is stopped. -/
def startScreenCapture (s : MediaSt) (acquired : Stream) (destAudio : Track) : MediaSt :=
  match acquired.getAudioTracks with
  | [] =>
      { s with isScreenSharing := true, screenStream := some acquired }
  | a :: _ =>
      { s with isScreenSharing := true,
               screenStream :=
                 some ⟨acquired.tracks.filter (fun t => t.tid ≠ a.tid) ++ [destAudio]⟩,
               screenGainNode := some (s.screenAudioVolume / 100 * 2) }

/-- `stopScreenCapture()`: stops the tracks of the current screen stream
and clears it; closes the screen gain graph. -/
def stopScreenCapture (s : MediaSt) : MediaSt :=
  let s1 :=
    match s.screenStream with
    | some sc =>
        { s with stoppedIds := stopStreamIds s.stoppedIds sc,
                 isScreenSharing := false,
                 screenStream := none }
    | none => s
  { s1 with screenGainNode := none }

/-- `startCamera()`: stores the acquired camera stream; no previous camera
track is stopped. -/
def startCamera (s : MediaSt) (acquired : Stream) : MediaSt :=
  { s with isCameraOn := true, cameraStream := some acquired }

/-- `startMicrophone()`: acquires `acquired`; when there is no stored raw
handle or the selected device changed, the stored raw handle's tracks are
stopped, the clone of the acquired stream is stored, and the
recording-path stream is (re)built via `createRecordingMicrophoneStream`.
The preview path installs a monitor gain node at `microphoneVolume / 100`
and publishes the preview destination stream. -/
def startMicrophone (s : MediaSt) (cloned recDest previewDest : Stream) : MediaSt :=
  let s1 :=
    if s.originalMicStream = none ∨ s.microphoneDevice ≠ s.selectedMicrophone then
      let s0 :=
        match s.originalMicStream with
        | some prev => { s with stoppedIds := stopStreamIds s.stoppedIds prev }
        | none => s
      createRecordingMicrophoneStream
        { s0 with originalMicStream := some cloned,
                  microphoneDevice := s.selectedMicrophone }
        recDest s.microphoneVolume
    else s
  { s1 with micGainNode := some (s.microphoneVolume / 100),
            isMicOn := true,
            microphoneStream := some previewDest }

/-- `stopMicrophone()`: stops the preview stream's tracks; stops and clears
the stored raw handle and the recording-path stream only when not
recording; tears down the monitor graph. -/
def stopMicrophone (s : MediaSt) : MediaSt :=
  let st1 :=
    match s.microphoneStream with
    | some pv => stopStreamIds s.stoppedIds pv
    | none => s.stoppedIds
  let st2 :=
    match s.isRecording, s.originalMicStream with
    | false, some om => stopStreamIds st1 om
    | _, _ => st1
  let om := if s.isRecording then s.originalMicStream else none
  let st3 :=
    match s.isRecording, s.recordingMicStream with
    | false, some rm => stopStreamIds st2 rm
    | _, _ => st2
  let rm := if s.isRecording then s.recordingMicStream else none
  { s with stoppedIds := st3,
           originalMicStream := om,
           recordingMicStream := rm,
           micGainNode := none,
           isMicOn := false,
           microphoneStream := none,
           audioLevel := 0 }

/-- `setMicrophoneVolume(volume)`: stores the preference and refreshes both
live gain nodes in place, using `volume / 100` on the monitor path and
`recGain volume` on the recording path. -/
def setMicrophoneVolume (s : MediaSt) (volume : ℚ) : MediaSt :=
  { s with microphoneVolume := volume,
           micGainNode := s.micGainNode.map fun _ => volume / 100,
           recordingMicGainNode := s.recordingMicGainNode.map fun _ => recGain volume }

/-- `createMixedAudioStream()`: returns the mixing-graph destination stream
when at least one audio input exists (the recording microphone stream, or
a screen stream with at least one audio track), and `null` otherwise. -/
def createMixedAudioStream (s : MediaSt) (mixDest : Stream) : Option Stream :=
  let hasMic := s.recordingMicStream.isSome
  let hasScreenAudio :=
    match s.screenStream with
    | some sc => decide (sc.getAudioTracks ≠ [])
    | none => false
  if hasMic || hasScreenAudio then some mixDest else none

/-- The combined stream assembled at the top of `startRecording`:
screen video tracks first; camera video (transformed stream preferred,
else raw camera) only when there is no screen stream and the camera is on;
then the audio tracks of the mixed audio stream. -/
def composeStream (s : MediaSt) (mixed : Option Stream) : Stream :=
  ⟨(match s.screenStream with
    | some sc => sc.getVideoTracks
    | none => [])
   ++
   (match s.screenStream, s.isCameraOn with
    | none, true =>
        (match s.transformedCameraStream with
         | some f => f.getVideoTracks
         | none =>
             match s.cameraStream with
             | some c => c.getVideoTracks
             | none => [])
    | _, _ => [])
   ++
   (match mixed with
    | some m => m.getAudioTracks
    | none => [])⟩

/-- The ordered codec preference list of `startRecording`. -/
def codecOptions : List String :=
  ["video/mp4;codecs=h264,aac",
   "video/mp4;codecs=avc1.42E01E,mp4a.40.2",
   "video/mp4",
   "video/webm;codecs=vp9,opus",
   "video/webm;codecs=vp8,opus",
   "video/webm"]

/-- Codec negotiation: first supported entry of `codecOptions`, with
`video/webm` as the fallback. -/
def pickMime (supported : String → Bool) : String :=
  (codecOptions.find? supported).getD "video/webm"

inductive RecStartOutcome where
  | started (mime : String)
  | noTracksAvailable
deriving DecidableEq, Repr

/-- `startRecording()`: composes the combined stream; when it has at least
one track, clears the chunk buffer, constructs a recorder on the combined
stream with the negotiated mime type and marks the session recording;
otherwise warns (`noTracksAvailable`) and leaves the state untouched.
There is no guard on `isRecording`. -/
def startRecording (s : MediaSt) (supported : String → Bool) (mixDest : Stream)
    (rid : Nat) : MediaSt × RecStartOutcome :=
  let mixed := createMixedAudioStream s mixDest
  let combined := composeStream s mixed
  if 0 < combined.tracks.length then
    let mime := pickMime supported
    ({ s with recordedChunks := [],
              recorder := some ⟨rid, combined, mime, false⟩,
              isRecording := true },
     RecStartOutcome.started mime)
  else (s, RecStartOutcome.noTracksAvailable)

/-- First half of `stopRecording()`: when an active recorder exists, stop
it, drop the handle and leave the Recording state. -/
def finalizeRecorder (s : MediaSt) : MediaSt :=
  match s.recorder with
  | some r =>
      if r.inactive = false then
        { s with recorder := none, isRecording := false }
      else s
  | none => s

/-- Second half of `stopRecording()`: post-recording cleanup of the raw and
recording-path microphone streams, performed only when the microphone is
off. -/
def micPostCleanup (s : MediaSt) : MediaSt :=
  let st1 :=
    match s.isMicOn, s.originalMicStream with
    | false, some om => stopStreamIds s.stoppedIds om
    | _, _ => s.stoppedIds
  let om := if s.isMicOn then s.originalMicStream else none
  let st2 :=
    match s.isMicOn, s.recordingMicStream with
    | false, some rm => stopStreamIds st1 rm
    | _, _ => st1
  let rm := if s.isMicOn then s.recordingMicStream else none
  { s with stoppedIds := st2,
           originalMicStream := om,
           recordingMicStream := rm }

/-- `stopRecording()`: finalize the recorder, then run the deferred
microphone cleanup. -/
def stopRecording (s : MediaSt) : MediaSt :=
  micPostCleanup (finalizeRecorder s)

/-- The `ondataavailable` handler: `if (event.data.size > 0) push`. -/
def pushChunk (buf : List Chunk) (c : Chunk) : List Chunk :=
  if 0 < c.size then buf ++ [c] else buf

/-- Chunk delivery over a whole session interval. -/
def deliverChunks (buf : List Chunk) (cs : List Chunk) : List Chunk :=
  cs.foldl pushChunk buf

/-- The `onstop` handler: builds the artifact blob from the accumulated
chunk buffer and clears the buffer. -/
def finalizeChunks (buf : List Chunk) (mime : String) : RecordingBlob × List Chunk :=
  (⟨buf, mime⟩, [])

/-- The visual filter gateway state (`GenderFilterState` of
`useGenderFilter`, with `apiStatus` reduced to its `available` flag). -/
structure FilterSt where
  isProcessing : Bool
  error : Option String
  transformedStream : Option Stream
  apiAvailable : Bool
deriving DecidableEq, Repr

/-- `applyEnhancedFilter`: yields the canvas capture stream when the canvas
initializes, and falls back to the original stream otherwise. -/
def applyEnhancedFilter (canvasOk : Bool) (canvasOut original : Stream) : Stream :=
  if canvasOk then canvasOut else original

/-- `startGenderFilter(originalStream, filterType, useAI)`: tries the AI
gateway when requested and available (`aiResult = none` models a gateway
failure, which falls back to the enhanced filter with a warning); the
non-AI path uses the enhanced filter and warns when the API is
unavailable.  Never throws. -/
def startGenderFilter (fs : FilterSt) (original : Stream) (useAI : Bool)
    (aiResult : Option Stream) (canvasOk : Bool) (canvasOut : Stream) : FilterSt :=
  let enhanced := applyEnhancedFilter canvasOk canvasOut original
  if useAI && fs.apiAvailable then
    match aiResult with
    | some t =>
        { fs with isProcessing := false, error := none, transformedStream := some t }
    | none =>
        { fs with isProcessing := false,
                  error := some "AI transformation unavailable. Using enhanced CSS filters.",
                  transformedStream := some enhanced }
  else
    { fs with isProcessing := false,
              error :=
                if fs.apiAvailable then none
                else some "AI APIs not configured. Using enhanced CSS filters.",
              transformedStream := some enhanced }

/-- A fresh idle session state (the initial React state with empty refs). -/
def baseSt : MediaSt :=
  { isScreenSharing := false, isCameraOn := false, isMicOn := false,
    isRecording := false, screenStream := none, cameraStream := none,
    microphoneStream := none, transformedCameraStream := none,
    audioLevel := 0, microphoneVolume := 75, screenAudioVolume := 80,
    selectedMicrophone := "default", originalMicStream := none,
    microphoneDevice := "default", recordingMicStream := none,
    recorder := none, recordedChunks := [], micGainNode := none,
    recordingMicGainNode := none, screenGainNode := none, stoppedIds := [] }

/-- Fixture: screen and camera both active. -/
def stBothActive : MediaSt :=
  { baseSt with isScreenSharing := true,
                screenStream := some ⟨[⟨0, TrackKind.video⟩]⟩,
                isCameraOn := true,
                cameraStream := some ⟨[⟨1, TrackKind.video⟩]⟩ }

/-- Fixture: camera only, with a filtered camera stream present. -/
def stCamFiltered : MediaSt :=
  { baseSt with isCameraOn := true,
                cameraStream := some ⟨[⟨1, TrackKind.video⟩]⟩,
                transformedCameraStream := some ⟨[⟨2, TrackKind.video⟩]⟩ }

/-- Fixture: camera only, no filtered stream. -/
def stCamRaw : MediaSt :=
  { baseSt with isCameraOn := true,
                cameraStream := some ⟨[⟨1, TrackKind.video⟩]⟩ }

/-- Fixture: a stored raw microphone handle while a different device is
selected. -/
def stMicSwitch : MediaSt :=
  { baseSt with originalMicStream := some ⟨[⟨3, TrackKind.audio⟩]⟩,
                microphoneDevice := "default",
                selectedMicrophone := "usb-mic" }

/-- Fixture: microphone and recording both running (raw handle track 1,
preview track 2, active recorder). -/
def stRecordingMic : MediaSt :=
  { baseSt with isRecording := true, isMicOn := true,
                originalMicStream := some ⟨[⟨1, TrackKind.audio⟩]⟩,
                microphoneStream := some ⟨[⟨2, TrackKind.audio⟩]⟩,
                recordingMicStream := some ⟨[⟨4, TrackKind.audio⟩]⟩,
                recorder := some ⟨5, ⟨[]⟩, "video/webm", false⟩ }

/-- Fixture: an active recording session with a live screen source. -/
def stMidRecording : MediaSt :=
  { baseSt with isRecording := true, isScreenSharing := true,
                screenStream := some ⟨[⟨0, TrackKind.video⟩]⟩,
                recorder := some ⟨5, ⟨[⟨0, TrackKind.video⟩]⟩, "video/webm", false⟩ }

/-- Fixture: both live gain nodes installed. -/
def stGainNodes : MediaSt :=
  { baseSt with micGainNode := some (3 / 4),
                recordingMicGainNode := some (15 / 4) }

/-- Fixture: idle state with a live screen source, ready to record. -/
def stScreenIdle : MediaSt :=
  { baseSt with isScreenSharing := true,
                screenStream := some ⟨[⟨0, TrackKind.video⟩]⟩ }

/-- Fixture: filter gateway state with the AI API reported available. -/
def fsApiUp : FilterSt :=
  { isProcessing := false, error := none, transformedStream := none,
    apiAvailable := true }

theorem filter_kind_idem (l : List Track) (k : TrackKind) :
    (l.filter fun t => t.kind = k).filter (fun t => t.kind = k) =
      l.filter fun t => t.kind = k := by
  induction l with
  | nil => rfl
  | cons a l ih => by_cases h : a.kind = k <;> simp [List.filter, h, ih]

theorem filter_video_of_audio (l : List Track) :
    (l.filter fun t => t.kind = TrackKind.audio).filter
        (fun t => t.kind = TrackKind.video) = [] := by
  induction l with
  | nil => rfl
  | cons a l ih =>
    by_cases h : a.kind = TrackKind.audio <;> simp [List.filter, h, ih]

/-- A video-kind track never has audio kind. -/
theorem video_kind_not_audio (l : List Track) :
    ∀ a ∈ l, a.kind = TrackKind.video → ¬a.kind = TrackKind.audio := by
  intro a _ h hh
  rw [h] at hh
  exact TrackKind.noConfusion hh

/-- The composed stream's video tracks when a screen stream is present are
exactly the screen's video tracks. -/
theorem compose_screen_video (s : MediaSt) (mixed : Option Stream) (sc : Stream)
    (hsc : s.screenStream = some sc) :
    (composeStream s mixed).getVideoTracks = sc.getVideoTracks := by
  cases mixed with
  | none =>
      simp [composeStream, hsc, Stream.getVideoTracks, List.filter_append,
            filter_kind_idem]
  | some m =>
      simp [composeStream, hsc, Stream.getVideoTracks, Stream.getAudioTracks,
            List.filter_append, filter_kind_idem, filter_video_of_audio]
      exact video_kind_not_audio m.tracks

/-- The composed stream's video tracks when only the camera is active are
exactly the video tracks of the filtered stream if present, else of the raw
camera stream. -/
theorem compose_camera_video (s : MediaSt) (mixed : Option Stream) (c : Stream)
    (hsc : s.screenStream = none) (hcam : s.isCameraOn = true)
    (hc : s.transformedCameraStream = some c ∨
          (s.transformedCameraStream = none ∧ s.cameraStream = some c)) :
    (composeStream s mixed).getVideoTracks = c.getVideoTracks := by
  rcases hc with hf | ⟨hf, hraw⟩
  · cases mixed with
    | none =>
        simp [composeStream, hsc, hcam, hf, Stream.getVideoTracks,
              List.filter_append, filter_kind_idem]
    | some m =>
        simp [composeStream, hsc, hcam, hf, Stream.getVideoTracks,
              Stream.getAudioTracks, List.filter_append, filter_kind_idem,
              filter_video_of_audio]
        exact video_kind_not_audio m.tracks
  · cases mixed with
    | none =>
        simp [composeStream, hsc, hcam, hf, hraw, Stream.getVideoTracks,
              List.filter_append, filter_kind_idem]
    | some m =>
        simp [composeStream, hsc, hcam, hf, hraw, Stream.getVideoTracks,
              Stream.getAudioTracks, List.filter_append, filter_kind_idem,
              filter_video_of_audio]
        exact video_kind_not_audio m.tracks

/-- Claim C1: for every recording start, with both a screen source and a
camera source active the composed recording stream's video tracks are
exactly the screen's video tracks and no camera video track is included;
with only the camera active, the filtered camera stream's video tracks are
used when present, else the raw camera's. -/
theorem C1_video_track_priority (s : MediaSt) (mixed : Option Stream)
    (sc cam f : Stream) :
    (s.screenStream = some sc → s.isCameraOn = true → s.cameraStream = some cam →
      (composeStream s mixed).getVideoTracks = sc.getVideoTracks ∧
      ∀ t ∈ cam.getVideoTracks, t ∉ sc.getVideoTracks →
        t ∉ (composeStream s mixed).tracks) ∧
    (s.screenStream = none → s.isCameraOn = true →
      s.transformedCameraStream = some f →
      (composeStream s mixed).getVideoTracks = f.getVideoTracks) ∧
    (s.screenStream = none → s.isCameraOn = true →
      s.transformedCameraStream = none → s.cameraStream = some cam →
      (composeStream s mixed).getVideoTracks = cam.getVideoTracks) := by
  refine ⟨fun hsc _ _ => ⟨compose_screen_video s mixed sc hsc, ?_⟩,
          fun hsc hcam hf => compose_camera_video s mixed f hsc hcam (Or.inl hf),
          fun hsc hcam hf hc =>
            compose_camera_video s mixed cam hsc hcam (Or.inr ⟨hf, hc⟩)⟩
  intro t htc hts hmem
  have htv : t.kind = TrackKind.video := by
    have := List.mem_filter.mp htc
    simpa using this.2
  cases hm : mixed with
  | none =>
      rw [hm] at hmem
      simp [composeStream, hsc] at hmem
      exact hts (by simpa [Stream.getVideoTracks] using hmem)
  | some m =>
      rw [hm] at hmem
      simp [composeStream, hsc] at hmem
      rcases hmem with hmem | hmem
      · exact hts (by simpa [Stream.getVideoTracks] using hmem)
      · have hta : t.kind = TrackKind.audio := by
          have := List.mem_filter.mp hmem
          simpa [Stream.getAudioTracks] using this.2
        rw [htv] at hta
        exact TrackKind.noConfusion hta

/-- Claim C1 witness: concrete composition results for the three branches
(both active, camera with filter, camera raw). -/
theorem C1_video_track_priority_witness :
    ((composeStream stBothActive none).getVideoTracks =
        (⟨[⟨0, TrackKind.video⟩]⟩ : Stream).getVideoTracks ∧
     (⟨1, TrackKind.video⟩ : Track) ∉ (composeStream stBothActive none).tracks) ∧
    (composeStream stCamFiltered none).getVideoTracks =
        (⟨[⟨2, TrackKind.video⟩]⟩ : Stream).getVideoTracks ∧
    (composeStream stCamRaw none).getVideoTracks =
        (⟨[⟨1, TrackKind.video⟩]⟩ : Stream).getVideoTracks := by
  refine ⟨⟨?_, ?_⟩, ?_, ?_⟩
  · exact ((C1_video_track_priority stBothActive none ⟨[⟨0, TrackKind.video⟩]⟩
      ⟨[⟨1, TrackKind.video⟩]⟩ ⟨[]⟩).1 rfl rfl rfl).1
  · exact ((C1_video_track_priority stBothActive none ⟨[⟨0, TrackKind.video⟩]⟩
      ⟨[⟨1, TrackKind.video⟩]⟩ ⟨[]⟩).1 rfl rfl rfl).2
      ⟨1, TrackKind.video⟩ (by decide) (by decide)
  · exact (C1_video_track_priority stCamFiltered none ⟨[]⟩
      ⟨[⟨1, TrackKind.video⟩]⟩ ⟨[⟨2, TrackKind.video⟩]⟩).2.1 rfl rfl rfl
  · exact (C1_video_track_priority stCamRaw none ⟨[]⟩
      ⟨[⟨1, TrackKind.video⟩]⟩ ⟨[]⟩).2.2 rfl rfl rfl rfl

/-- Claim C3: startRecording with no active screen source, no active camera
and no audio input reports noTracksAvailable and leaves the state
untouched: still idle, no recorder constructed, chunk buffer unchanged. -/
theorem C3_no_tracks_blocks_start (s : MediaSt) (supported : String → Bool)
    (mixDest : Stream) (rid : Nat)
    (hscreen : s.screenStream = none) (hcam : s.isCameraOn = false)
    (hmic : s.recordingMicStream = none) (hidle : s.isRecording = false) :
    (startRecording s supported mixDest rid).2 =
        RecStartOutcome.noTracksAvailable ∧
    (startRecording s supported mixDest rid).1 = s ∧
    (startRecording s supported mixDest rid).1.isRecording = false ∧
    (startRecording s supported mixDest rid).1.recorder = s.recorder ∧
    (startRecording s supported mixDest rid).1.recordedChunks =
        s.recordedChunks := by
  have hmix : createMixedAudioStream s mixDest = none := by
    simp [createMixedAudioStream, hscreen, hmic]
  have hcomp : composeStream s (createMixedAudioStream s mixDest) = ⟨[]⟩ := by
    simp [composeStream, hmix, hscreen, hcam]
  simp [startRecording, hcomp, hidle]

/-- Claim C3 witness: the fresh idle state rejects startRecording with
noTracksAvailable and is left unchanged. -/
theorem C3_no_tracks_blocks_start_witness :
    (startRecording baseSt (fun _ => false) ⟨[]⟩ 7).2 =
        RecStartOutcome.noTracksAvailable ∧
    (startRecording baseSt (fun _ => false) ⟨[]⟩ 7).1 = baseSt ∧
    (startRecording baseSt (fun _ => false) ⟨[]⟩ 7).1.isRecording = false ∧
    (startRecording baseSt (fun _ => false) ⟨[]⟩ 7).1.recorder = baseSt.recorder ∧
    (startRecording baseSt (fun _ => false) ⟨[]⟩ 7).1.recordedChunks =
        baseSt.recordedChunks :=
  C3_no_tracks_blocks_start baseSt (fun _ => false) ⟨[]⟩ 7 rfl rfl rfl rfl

/-- Claim C6: the audio mixer returns none exactly when there is no
recording microphone stream and the screen stream (if any) carries no
audio track. -/
theorem C6_mixer_none_iff_no_inputs (s : MediaSt) (mixDest : Stream) :
    createMixedAudioStream s mixDest = none ↔
      (s.recordingMicStream = none ∧
        ∀ sc, s.screenStream = some sc → sc.getAudioTracks = []) := by
  cases hmic : s.recordingMicStream <;> cases hsc : s.screenStream <;>
    simp [createMixedAudioStream, hmic, hsc]

/-- Claim C8: the gain multiplier installed by setMicrophoneVolume is
monotone in the volume, on both the monitoring path and the recording
path. -/
theorem C8_set_volume_monotone (s : MediaSt) (v1 v2 : ℚ)
    (h0 : 0 ≤ v1) (h12 : v1 ≤ v2) (h2 : v2 ≤ 100) :
    (setMicrophoneVolume s v1).micGainNode.getD 0 ≤
      (setMicrophoneVolume s v2).micGainNode.getD 0 ∧
    (setMicrophoneVolume s v1).recordingMicGainNode.getD 0 ≤
      (setMicrophoneVolume s v2).recordingMicGainNode.getD 0 := by
  constructor
  · cases h : s.micGainNode with
    | none => simp [setMicrophoneVolume, h]
    | some g =>
        simp [setMicrophoneVolume, h]
        linarith
  · cases h : s.recordingMicGainNode with
    | none => simp [setMicrophoneVolume, h]
    | some g =>
        have hm : recGain v1 ≤ recGain v2 := by
          unfold recGain
          exact max_le_max le_rfl (by linarith)
        simpa [setMicrophoneVolume, h] using hm

/-- Claim C8 witness: volumes 40 and 80 with both gain nodes installed. -/
theorem C8_set_volume_monotone_witness :
    (setMicrophoneVolume stGainNodes 40).micGainNode.getD 0 ≤
      (setMicrophoneVolume stGainNodes 80).micGainNode.getD 0 ∧
    (setMicrophoneVolume stGainNodes 40).recordingMicGainNode.getD 0 ≤
      (setMicrophoneVolume stGainNodes 80).recordingMicGainNode.getD 0 :=
  C8_set_volume_monotone stGainNodes 40 80 (by norm_num) (by norm_num)
    (by norm_num)

/-- Claim C9: for every volume in 0..100 the recording-path gain installed
by createRecordingMicrophoneStream, and the one refreshed by
setMicrophoneVolume when the node exists, is at least the floor 2 and
hence strictly positive. -/
theorem C9_recording_gain_floor (s : MediaSt) (dest : Stream) (v : ℚ)
    (h0 : 0 ≤ v) (h1 : v ≤ 100) :
    2 ≤ (createRecordingMicrophoneStream s dest v).recordingMicGainNode.getD 0 ∧
    0 < (createRecordingMicrophoneStream s dest v).recordingMicGainNode.getD 0 ∧
    (s.recordingMicGainNode.isSome = true →
      2 ≤ (setMicrophoneVolume s v).recordingMicGainNode.getD 0 ∧
      0 < (setMicrophoneVolume s v).recordingMicGainNode.getD 0) := by
  have hg : (2 : ℚ) ≤ recGain v := le_max_left _ _
  have hp : (0 : ℚ) < recGain v := lt_of_lt_of_le (by norm_num) hg
  refine ⟨?_, ?_, fun hs => ⟨?_, ?_⟩⟩
  · simpa [createRecordingMicrophoneStream] using hg
  · simpa [createRecordingMicrophoneStream] using hp
  · cases h : s.recordingMicGainNode with
    | none => rw [h] at hs; exact absurd hs (by simp)
    | some g => simpa [setMicrophoneVolume, h] using hg
  · cases h : s.recordingMicGainNode with
    | none => rw [h] at hs; exact absurd hs (by simp)
    | some g => simpa [setMicrophoneVolume, h] using hp

/-- Claim C9 witness: volume 40 with the recording gain node installed. -/
theorem C9_recording_gain_floor_witness :
    2 ≤ (createRecordingMicrophoneStream stGainNodes ⟨[]⟩
          40).recordingMicGainNode.getD 0 ∧
    0 < (createRecordingMicrophoneStream stGainNodes ⟨[]⟩
          40).recordingMicGainNode.getD 0 ∧
    (stGainNodes.recordingMicGainNode.isSome = true →
      2 ≤ (setMicrophoneVolume stGainNodes 40).recordingMicGainNode.getD 0 ∧
      0 < (setMicrophoneVolume stGainNodes 40).recordingMicGainNode.getD 0) :=
  C9_recording_gain_floor stGainNodes ⟨[]⟩ 40 (by norm_num) (by norm_num)

/-- Chunk delivery appends exactly the non-empty chunks. -/
theorem deliverChunks_eq (cs : List Chunk) (acc : List Chunk) :
    deliverChunks acc cs = acc ++ cs.filter fun c => 0 < c.size := by
  induction cs generalizing acc with
  | nil => simp [deliverChunks]
  | cons c cs ih =>
    have h1 : deliverChunks acc (c :: cs) = deliverChunks (pushChunk acc c) cs :=
      rfl
    rw [h1, ih]
    by_cases h : 0 < c.size
    · simp [pushChunk, h, List.filter_cons]
    · simp [pushChunk, h, List.filter_cons]

/-- Claim C10: a successful startRecording clears the chunk buffer before
the recorder begins, so the artifact finalized after this session's
deliveries consists exactly of the session's own non-empty chunks, and the
buffer is cleared again after the artifact is built. -/
theorem C10_session_chunk_isolation (s : MediaSt) (supported : String → Bool)
    (mixDest : Stream) (rid : Nat) (cs : List Chunk) (mime : String)
    (h : (startRecording s supported mixDest rid).2 =
          RecStartOutcome.started mime) :
    (finalizeChunks
        (deliverChunks (startRecording s supported mixDest rid).1.recordedChunks
          cs) mime).1.parts = cs.filter (fun c => 0 < c.size) ∧
    (finalizeChunks
        (deliverChunks (startRecording s supported mixDest rid).1.recordedChunks
          cs) mime).2 = [] := by
  have hbuf : (startRecording s supported mixDest rid).1.recordedChunks = [] := by
    unfold startRecording at h ⊢
    by_cases hc :
        0 < (composeStream s (createMixedAudioStream s mixDest)).tracks.length
    · simp [hc]
    · simp [hc] at h
  rw [hbuf, deliverChunks_eq]
  simp [finalizeChunks]

/-- Claim C10 witness: recording over the screen fixture with a stale chunk
already buffered; the zero-size chunk is dropped and the artifact holds
exactly the two non-empty chunks of this session. -/
theorem C10_session_chunk_isolation_witness :
    (finalizeChunks
        (deliverChunks
          (startRecording { stScreenIdle with recordedChunks := [⟨99, 99⟩] }
              (fun _ => false) ⟨[]⟩ 7).1.recordedChunks
          [⟨10, 0⟩, ⟨0, 1⟩, ⟨5, 2⟩]) "video/webm").1.parts =
      List.filter (fun c => 0 < c.size) [⟨10, 0⟩, ⟨0, 1⟩, ⟨5, 2⟩] ∧
    (finalizeChunks
        (deliverChunks
          (startRecording { stScreenIdle with recordedChunks := [⟨99, 99⟩] }
              (fun _ => false) ⟨[]⟩ 7).1.recordedChunks
          [⟨10, 0⟩, ⟨0, 1⟩, ⟨5, 2⟩]) "video/webm").2 = [] :=
  C10_session_chunk_isolation { stScreenIdle with recordedChunks := [⟨99, 99⟩] }
    (fun _ => false) ⟨[]⟩ 7 [⟨10, 0⟩, ⟨0, 1⟩, ⟨5, 2⟩] "video/webm" (by decide)

/-- Claim C4: stopMicrophone during an active recording leaves every track
of the stored raw microphone handle unstopped and keeps the handle; the
deferred cleanup inside stopRecording runs on a state already out of the
Recording state and only then stops those tracks. -/
theorem C4_mic_release_deferred (s : MediaSt) (m pv : Stream) (r : Recorder)
    (hrec : s.isRecording = true)
    (hm : s.originalMicStream = some m)
    (hpv : s.microphoneStream = some pv)
    (hr : s.recorder = some r) (hri : r.inactive = false)
    (hdisj : ∀ t ∈ m.tracks, ∀ p ∈ pv.tracks, t.tid ≠ p.tid)
    (hlive : ∀ t ∈ m.tracks, t.tid ∉ s.stoppedIds) :
    (∀ t ∈ m.tracks, t.tid ∉ (stopMicrophone s).stoppedIds) ∧
    (stopMicrophone s).originalMicStream = some m ∧
    (finalizeRecorder (stopMicrophone s)).isRecording = false ∧
    (∀ t ∈ m.tracks, t.tid ∈ (stopRecording (stopMicrophone s)).stoppedIds) := by
  refine ⟨?_, ?_, ?_, ?_⟩
  · intro t ht
    simp [stopMicrophone, hrec, hm, hpv, stopStreamIds, List.mem_append,
          List.mem_map]
    refine ⟨hlive t ht, ?_⟩
    intro p hp
    exact fun he => hdisj t ht p hp he.symm
  · simp [stopMicrophone, hrec, hm]
  · simp [stopMicrophone, finalizeRecorder, hrec, hr, hri]
  · intro t ht
    have hmem : t.tid ∈ List.map Track.tid m.tracks := List.mem_map_of_mem _ ht
    cases hrm : s.recordingMicStream with
    | none =>
        simp [stopRecording, stopMicrophone, finalizeRecorder, micPostCleanup,
              hrec, hm, hpv, hr, hri, hrm, stopStreamIds,
              List.mem_append] at hmem ⊢
        exact Or.inr (Or.inr hmem)
    | some rm =>
        simp [stopRecording, stopMicrophone, finalizeRecorder, micPostCleanup,
              hrec, hm, hpv, hr, hri, hrm, stopStreamIds,
              List.mem_append] at hmem ⊢
        exact Or.inr (Or.inr (Or.inl hmem))

/-- Claim C4 witness: raw mic track 1 stays live through stopMicrophone
during recording and is stopped by the post-recording cleanup. -/
theorem C4_mic_release_deferred_witness :
    (∀ t ∈ (⟨[⟨1, TrackKind.audio⟩]⟩ : Stream).tracks,
        t.tid ∉ (stopMicrophone stRecordingMic).stoppedIds) ∧
    (stopMicrophone stRecordingMic).originalMicStream =
        some ⟨[⟨1, TrackKind.audio⟩]⟩ ∧
    (finalizeRecorder (stopMicrophone stRecordingMic)).isRecording = false ∧
    (∀ t ∈ (⟨[⟨1, TrackKind.audio⟩]⟩ : Stream).tracks,
        t.tid ∈ (stopRecording (stopMicrophone stRecordingMic)).stoppedIds) :=
  C4_mic_release_deferred stRecordingMic ⟨[⟨1, TrackKind.audio⟩]⟩
    ⟨[⟨2, TrackKind.audio⟩]⟩ (⟨5, ⟨[]⟩, "video/webm", false⟩ : Recorder)
    rfl rfl rfl rfl rfl (by decide) (by decide)

/-- Claim C7: when the filter gateway cannot produce a transform (the AI
path fails or the API is unavailable, and the canvas pipeline fails to
initialize), startGenderFilter completes without a hard failure, surfaces a
warning, publishes the unfiltered camera stream, and a subsequent
composition for recording uses exactly the unfiltered camera's video
tracks. -/
theorem C7_filter_failure_degrades (fs : FilterSt) (s : MediaSt)
    (camera canvasOut : Stream) (useAI : Bool) (aiResult : Option Stream)
    (mixed : Option Stream)
    (hfail : (useAI = true ∧ fs.apiAvailable = true ∧ aiResult = none) ∨
             fs.apiAvailable = false) :
    (startGenderFilter fs camera useAI aiResult false canvasOut).transformedStream
        = some camera ∧
    (startGenderFilter fs camera useAI aiResult false canvasOut).error.isSome
        = true ∧
    (startGenderFilter fs camera useAI aiResult false canvasOut).isProcessing
        = false ∧
    (composeStream
        { s with screenStream := none, isCameraOn := true,
                 cameraStream := some camera,
                 transformedCameraStream :=
                   (startGenderFilter fs camera useAI aiResult false
                     canvasOut).transformedStream }
        mixed).getVideoTracks = camera.getVideoTracks := by
  have hts :
      (startGenderFilter fs camera useAI aiResult false canvasOut).transformedStream
        = some camera ∧
      (startGenderFilter fs camera useAI aiResult false canvasOut).error.isSome
        = true ∧
      (startGenderFilter fs camera useAI aiResult false canvasOut).isProcessing
        = false := by
    rcases hfail with ⟨hu, ha, hai⟩ | ha
    · subst hu
      subst hai
      simp [startGenderFilter, applyEnhancedFilter, ha]
    · simp [startGenderFilter, applyEnhancedFilter, ha]
  refine ⟨hts.1, hts.2.1, hts.2.2, ?_⟩
  exact compose_camera_video _ mixed camera rfl rfl (Or.inl (by simp [hts.1]))

/-- Claim C7 witness: API reported available but the AI transform fails and
the canvas fails; the unfiltered camera (track 1) flows into the
composition. -/
theorem C7_filter_failure_degrades_witness :
    (startGenderFilter fsApiUp ⟨[⟨1, TrackKind.video⟩]⟩ true none false
        ⟨[⟨8, TrackKind.video⟩]⟩).transformedStream =
      some ⟨[⟨1, TrackKind.video⟩]⟩ ∧
    (startGenderFilter fsApiUp ⟨[⟨1, TrackKind.video⟩]⟩ true none false
        ⟨[⟨8, TrackKind.video⟩]⟩).error.isSome = true ∧
    (startGenderFilter fsApiUp ⟨[⟨1, TrackKind.video⟩]⟩ true none false
        ⟨[⟨8, TrackKind.video⟩]⟩).isProcessing = false ∧
    (composeStream
        { baseSt with screenStream := none, isCameraOn := true,
                      cameraStream := some ⟨[⟨1, TrackKind.video⟩]⟩,
                      transformedCameraStream :=
                        (startGenderFilter fsApiUp ⟨[⟨1, TrackKind.video⟩]⟩ true
                          none false ⟨[⟨8, TrackKind.video⟩]⟩).transformedStream }
        none).getVideoTracks = (⟨[⟨1, TrackKind.video⟩]⟩ : Stream).getVideoTracks :=
  C7_filter_failure_degrades fsApiUp baseSt ⟨[⟨1, TrackKind.video⟩]⟩
    ⟨[⟨8, TrackKind.video⟩]⟩ true none none (Or.inl ⟨rfl, rfl, rfl⟩)

/-- Claim C2 counterexample: starting screen capture while a screen source
with live track 0 is active installs the new handle without stopping the
previous handle's track — the stopped set stays empty, so the previous
handle is not released before the new acquisition completes. -/
theorem C2_counterexample :
    (startScreenCapture
        { baseSt with isScreenSharing := true,
                      screenStream := some ⟨[⟨0, TrackKind.video⟩]⟩ }
        ⟨[⟨1, TrackKind.video⟩]⟩ ⟨9, TrackKind.audio⟩).stoppedIds = [] ∧
    (startScreenCapture
        { baseSt with isScreenSharing := true,
                      screenStream := some ⟨[⟨0, TrackKind.video⟩]⟩ }
        ⟨[⟨1, TrackKind.video⟩]⟩ ⟨9, TrackKind.audio⟩).screenStream =
      some ⟨[⟨1, TrackKind.video⟩]⟩ ∧
    ({ baseSt with isScreenSharing := true,
                   screenStream :=
                     some ⟨[⟨0, TrackKind.video⟩]⟩ } : MediaSt).isScreenSharing
      = true := by
  decide

/-- Claim C2 amended: starting screen or camera never stops any previous
handle's tracks (the stopped set is untouched, so a previous live handle
stays live); only startMicrophone stops the previously stored raw
microphone handle, and only when that handle exists and the selected
device differs from the stored one. -/
theorem C2_start_no_release (s : MediaSt)
    (acquired cloned recDest previewDest : Stream) (destAudio : Track)
    (prev : Stream)
    (hprev : s.originalMicStream = some prev)
    (hdev : s.microphoneDevice ≠ s.selectedMicrophone) :
    (startScreenCapture s acquired destAudio).stoppedIds = s.stoppedIds ∧
    (startCamera s acquired).stoppedIds = s.stoppedIds ∧
    (∀ t ∈ prev.tracks,
        t.tid ∈ (startMicrophone s cloned recDest previewDest).stoppedIds) := by
  refine ⟨?_, rfl, ?_⟩
  · cases h : acquired.getAudioTracks <;> simp [startScreenCapture, h]
  · intro t ht
    simp [startMicrophone, hprev, hdev, createRecordingMicrophoneStream,
          stopStreamIds, List.mem_append]
    exact Or.inr ⟨t, ht, rfl⟩

/-- Claim C2 amended witness: a stored raw mic handle (track 3) with a
changed device selection is stopped by startMicrophone; screen and camera
starts leave the stopped set untouched. -/
theorem C2_start_no_release_witness :
    (startScreenCapture stMicSwitch ⟨[⟨1, TrackKind.video⟩]⟩
        ⟨9, TrackKind.audio⟩).stoppedIds = stMicSwitch.stoppedIds ∧
    (startCamera stMicSwitch ⟨[⟨1, TrackKind.video⟩]⟩).stoppedIds =
        stMicSwitch.stoppedIds ∧
    (∀ t ∈ (⟨[⟨3, TrackKind.audio⟩]⟩ : Stream).tracks,
        t.tid ∈ (startMicrophone stMicSwitch ⟨[]⟩ ⟨[]⟩ ⟨[]⟩).stoppedIds) :=
  C2_start_no_release stMicSwitch ⟨[⟨1, TrackKind.video⟩]⟩ ⟨[]⟩ ⟨[]⟩ ⟨[]⟩
    ⟨9, TrackKind.audio⟩ ⟨[⟨3, TrackKind.audio⟩]⟩ rfl (by decide)

/-- Claim C5 counterexample: startRecording issued while the session is
already Recording (active recorder 5) is not rejected: it constructs a new
recorder 7 on the current sources and replaces the active one. -/
theorem C5_counterexample :
    (startRecording stMidRecording (fun _ => false) ⟨[]⟩ 7).1.recorder =
      some ⟨7, ⟨[⟨0, TrackKind.video⟩]⟩, "video/webm", false⟩ ∧
    (startRecording stMidRecording (fun _ => false) ⟨[]⟩ 7).2 =
      RecStartOutcome.started "video/webm" ∧
    stMidRecording.isRecording = true ∧
    stMidRecording.recorder ≠
      (startRecording stMidRecording (fun _ => false) ⟨[]⟩ 7).1.recorder := by
  decide

/-- Claim C5 amended: startRecording has no guard on the Recording state:
whenever the composed stream is non-empty — even while already Recording —
it constructs a fresh recorder on the composed stream with repeated codec
negotiation and installs it in place of the previous one; only an empty
composed stream prevents a new encoder session. -/
theorem C5_no_recording_guard (s : MediaSt) (supported : String → Bool)
    (mixDest : Stream) (rid : Nat)
    (hrec : s.isRecording = true)
    (htracks :
      0 < (composeStream s (createMixedAudioStream s mixDest)).tracks.length) :
    (startRecording s supported mixDest rid).1.recorder =
      some ⟨rid, composeStream s (createMixedAudioStream s mixDest),
            pickMime supported, false⟩ ∧
    (startRecording s supported mixDest rid).2 =
      RecStartOutcome.started (pickMime supported) ∧
    (startRecording s supported mixDest rid).1.isRecording = true := by
  simp [startRecording, htracks]

/-- Claim C5 amended witness: the mid-recording fixture accepts a second
startRecording, installing recorder 7 over recorder 5. -/
theorem C5_no_recording_guard_witness :
    (startRecording stMidRecording (fun _ => true) ⟨[]⟩ 7).1.recorder =
      some ⟨7, composeStream stMidRecording
                 (createMixedAudioStream stMidRecording ⟨[]⟩),
            pickMime (fun _ => true), false⟩ ∧
    (startRecording stMidRecording (fun _ => true) ⟨[]⟩ 7).2 =
      RecStartOutcome.started (pickMime (fun _ => true)) ∧
    (startRecording stMidRecording (fun _ => true) ⟨[]⟩ 7).1.isRecording =
      true :=
  C5_no_recording_guard stMidRecording (fun _ => true) ⟨[]⟩ 7 rfl (by decide)

end Kawaii
